import Mathlib

/-!
Shallow embedding of the CoderUJB test-generation evaluation pipeline
(`code_ujb/tasks/code_ujb_testgen.py`), covering:

* the pass@k estimator `get_pass_at_k` (also `estimator` in
  `code_ujb_mbpp.py`),
* the trial pipeline `run_d4j_test` / `validate_all_patches` (syntax check,
  build/run stage, trigger marker, coverage stage, demotion policy),
* the coverage-report walk `analysis_coverage`,
* the per-task changed-line (diff) coverage aggregation of
  `CodeUJBTestGen.evaluate`.

Numbers that the Python code holds as floats are modelled as rationals (ℚ).
External effects (the javalang parse, the `defects4j` subprocesses, the
`coverage.xml` file) are modelled by an explicit environment `D4JEnv`;
subprocess launches are recorded in an event trace (`Proc`).  Python
exceptions that the code can raise (IndexError, ValueError, KeyError,
FileNotFoundError / XML parse errors) are modelled by `Except String`.
-/

namespace CodeUJB

/-! ### Python string primitives

Character-level models of the `str` operations the source uses
(`split` with a one-character separator, `strip`, `replace(c, "")`,
substring containment, `float(...)`, `int(...)`), written so that they
evaluate by kernel reduction on concrete strings. -/

/-- Python `str.strip()` whitespace: space, tab, newline, carriage return,
vertical tab, form feed. -/
def isPySpace (c : Char) : Bool :=
  c = ' ' || c = '\t' || c = '\n' || c = '\r' || c = '\x0b' || c = '\x0c'

/-- Strip `isPySpace` characters from both ends of a character list. -/
def pyStripChars (cs : List Char) : List Char :=
  ((cs.dropWhile isPySpace).reverse.dropWhile isPySpace).reverse

/-- Python `s.strip()`. -/
def pyStrip (s : String) : String := String.mk (pyStripChars s.toList)

/-- Python `s.split(sep)` for a one-character separator, on character
lists: `"a:b" ↦ [[a],[b]]`, `"" ↦ [[]]`, `":" ↦ [[],[]]`. -/
def pySplitChar (sep : Char) : List Char → List (List Char)
  | [] => [[]]
  | c :: cs =>
    match pySplitChar sep cs with
    | h :: t => if c = sep then [] :: h :: t else (c :: h) :: t
    | [] => [[c]]

/-- Python `s.split(sep)` for a one-character separator. -/
def pySplitOn (s : String) (sep : Char) : List String :=
  (pySplitChar sep s.toList).map String.mk

/-- Whether `pat` occurs as a contiguous sublist of the second argument
(Python `pat in s`). -/
def containsSub (pat : List Char) : List Char → Bool
  | [] => pat.isEmpty
  | c :: cs => pat.isPrefixOf (c :: cs) || containsSub pat cs

/-- Python `pat in s` (substring containment). -/
def pyContains (s pat : String) : Bool := containsSub pat.toList s.toList

/-- Python `s.replace(c, "")`: remove every occurrence of character `c`. -/
def pyReplaceDrop (s : String) (c : Char) : String :=
  String.mk (s.toList.filter (fun x => x ≠ c))

/-- Value of a list of decimal digits. -/
def digitsToNat (cs : List Char) : ℕ :=
  cs.foldl (fun a c => 10 * a + (c.toNat - 48)) 0

/-- Model of Python `float(s)` on plain decimal literals: optional
whitespace, an optional sign, digits with an optional fractional part.
`none` models the `ValueError` that `float` raises on anything else. -/
def parsePyFloat? (s : String) : Option ℚ :=
  let cs := pyStripChars s.toList
  let sgncs : ℚ × List Char :=
    match cs with
    | '+' :: r => (1, r)
    | '-' :: r => (-1, r)
    | r => (1, r)
  let ip := sgncs.2.takeWhile Char.isDigit
  let rest := sgncs.2.dropWhile Char.isDigit
  match rest with
  | [] => if ip.isEmpty then none else some (sgncs.1 * (digitsToNat ip : ℚ))
  | '.' :: fp =>
    if fp.all Char.isDigit && !(ip.isEmpty && fp.isEmpty) then
      some (sgncs.1 * ((digitsToNat ip : ℚ) + (digitsToNat fp : ℚ) / (10 : ℚ) ^ fp.length))
    else none
  | _ => none

/-- Model of Python `int(s)` on plain decimal literals; `none` models the
`ValueError` on anything else. -/
def parsePyInt? (s : String) : Option Int :=
  let cs := pyStripChars s.toList
  let sgncs : Int × List Char :=
    match cs with
    | '+' :: r => (1, r)
    | '-' :: r => (-1, r)
    | r => (1, r)
  if sgncs.2.isEmpty || !(sgncs.2.all Char.isDigit) then none
  else some (sgncs.1 * (digitsToNat sgncs.2 : Int))

/-! ### The pass@k estimator

`get_pass_at_k(n, c, k)` of `code_ujb_testgen.py` (lines 291-293):

    if n - c < k : return 1.0
    return 1.0 - np.prod(1.0 - k / np.arange(n - c + 1, n + 1))

`np.arange(n - c + 1, n + 1)` is the integer range `n-c+1, …, n`. -/

/-- The pass@k estimator of `code_ujb_testgen.py`, over ℚ. -/
def get_pass_at_k (n c k : ℕ) : ℚ :=
  if n - c < k then 1
  else 1 - ∏ i ∈ Finset.Icc (n - c + 1) n, (1 - (k : ℚ) / (i : ℚ))

/-- The identical estimator nested in `estimate_pass_at_k` of
`code_ujb_mbpp.py` (lines 83-87). -/
def estimator (n c k : ℕ) : ℚ :=
  if n - c < k then 1
  else 1 - ∏ i ∈ Finset.Icc (n - c + 1) n, (1 - (k : ℚ) / (i : ℚ))

/-! ### The coverage report (`analysis_coverage`, lines 437-456)

`coverage.xml` is walked package → class → line; each line element
contributes `(class name, file name, line number, hits > 0)`.  Attribute
lookup models `Element.attrib[...]` (KeyError when absent), and the hit
count goes through `int(...)` (ValueError when malformed).  A missing
report file makes `ET.parse` raise, modelled by the `none` case. -/

/-- One `<line>` element: the attributes the walk reads, absent ones
modelling a `KeyError`. -/
structure LineXML where
  number : Option String
  hits : Option String
deriving DecidableEq

/-- One `<class>` element. -/
structure ClassXML where
  name : Option String
  filename : Option String
  lines : List LineXML
deriving DecidableEq

/-- One `<package>` element. -/
structure PackageXML where
  classes : List ClassXML
deriving DecidableEq

/-- A parsed `coverage.xml`. -/
structure CovXML where
  packages : List PackageXML
deriving DecidableEq

/-- A changed-line coverage record
`(be_test_class_name, be_test_class_file, line number, hit)`. -/
abbrev Record := String × String × String × Bool

/-- Python `element.attrib[key]`: `KeyError` when the attribute is absent. -/
def getAttr (o : Option String) : Except String String :=
  match o with
  | some v => Except.ok v
  | none => Except.error "KeyError"

/-- The inner loop of `analysis_coverage` over the `<line>` elements of one
class. -/
def analysis_lines (nm fn : String) : List LineXML → Except String (List Record)
  | [] => Except.ok []
  | l :: rest =>
    match getAttr l.number with
    | Except.error e => Except.error e
    | Except.ok num =>
      match getAttr l.hits with
      | Except.error e => Except.error e
      | Except.ok hs =>
        match parsePyInt? hs with
        | none => Except.error "ValueError"
        | some hv =>
          match analysis_lines nm fn rest with
          | Except.error e => Except.error e
          | Except.ok tail => Except.ok ((nm, fn, num, decide (0 < hv)) :: tail)

/-- The loop of `analysis_coverage` over the `<class>` elements of one
package. -/
def analysis_classes : List ClassXML → Except String (List Record)
  | [] => Except.ok []
  | c :: rest =>
    match getAttr c.name with
    | Except.error e => Except.error e
    | Except.ok nm =>
      match getAttr c.filename with
      | Except.error e => Except.error e
      | Except.ok fn =>
        match analysis_lines nm fn c.lines with
        | Except.error e => Except.error e
        | Except.ok here =>
          match analysis_classes rest with
          | Except.error e => Except.error e
          | Except.ok tail => Except.ok (here ++ tail)

/-- The outer loop of `analysis_coverage` over the `<package>` elements. -/
def analysis_packages : List PackageXML → Except String (List Record)
  | [] => Except.ok []
  | p :: rest =>
    match analysis_classes p.classes with
    | Except.error e => Except.error e
    | Except.ok here =>
      match analysis_packages rest with
      | Except.error e => Except.error e
      | Except.ok tail => Except.ok (here ++ tail)

/-- `analysis_coverage(tmp_project_path)` (lines 437-456).  The argument is
the content of `coverage.xml` under the workspace, `none` when the file is
missing — in which case `ET.parse` raises (`FileNotFoundError`); there is
no handler anywhere in the source. -/
def analysis_coverage (file : Option CovXML) : Except String (List Record) :=
  match file with
  | none => Except.error "FileNotFoundError"
  | some tree => analysis_packages tree.packages

/-! ### The tool runner and the trial pipeline (`run_d4j_test`, lines 342-434)

The polling loop of `run_d4j_test` distinguishes three behaviours of a
launched subprocess: a clean exit (`poll() == 0`, stdout read with
`readlines()` — each captured line keeps its trailing newline), an
abnormal exit (non-zero, stdout never read, so the captured log stays
empty), and exceeding the wall-clock budget (the process group is killed).
`D4JEnv.run` maps a shell command and its budget in seconds (120 for
`defects4j test`, 180 for `defects4j coverage`) to the observed
behaviour. -/

/-- Observed behaviour of one subprocess under the polling loop. -/
inductive ToolRun where
  | exited (code : Int) (stdout : List String)
  | hung
deriving DecidableEq

/-- The external world of one trial: whether javalang parses a source
string, what each launched shell command does under its wall-clock budget,
and the content of the workspace `coverage.xml` (`none` = missing file). -/
structure D4JEnv where
  parse_ok : String → Bool
  run : String → ℕ → ToolRun
  coverage_xml : Option CovXML

/-- A subprocess launch, for the trial's event trace. -/
inductive Proc where
  | rm (path : String)
  | checkout (project : String) (version : String) (workdir : String)
  | shell (cmd : String)
deriving DecidableEq

/-- The tuple `run_d4j_test` returns (line 434):
`compile_fail, timed_out, bugg, line_coverage, condition_coverage,
syntax_error, lines_coverage_info`. -/
structure RunResult where
  compile_fail : Bool
  timed_out : Bool
  bugg : Bool
  line_coverage : ℚ
  condition_coverage : ℚ
  syntax_err : Bool
  lines_coverage_info : List Record
deriving DecidableEq

/-- The exact marker the trigger stage compares the last captured stdout
line against (line 394); `readlines()` keeps the trailing newline. -/
def failing_tests_zero : String := "Failing tests: 0\n"

/-- Lines 394-397: `bugg` is `False` exactly when the captured log is
nonempty and its last line is the zero-failing-tests marker. -/
def trigger_bugg (log : List String) : Bool :=
  if 0 < log.length ∧ log.getLastD "" = failing_tests_zero then false else true

/-- The `defects4j test` command of line 361:
`'defects4j test -w %s/ -t %s' % ('/tmp/' + bug_id, testmethod.strip())`. -/
def test_cmd (bug_id testmethod : String) : String :=
  "defects4j test -w /tmp/" ++ bug_id ++ "/ -t " ++ pyStrip testmethod

/-- The `defects4j coverage` command of lines 400-405, with the increment
file at `/tmp/<bug_id>/increment.txt`. -/
def coverage_cmd (bug_id testmethod : String) : String :=
  "defects4j coverage -w /tmp/" ++ bug_id ++ " -t " ++ pyStrip testmethod
    ++ " -i /tmp/" ++ bug_id ++ "/increment.txt"

/-- Lines 425-430 applied to one log line: when the marker occurs in the
line, `float(line.split(":")[-1].strip().replace("%", "")) / 100.0`
(`ValueError` when the float parse fails); otherwise the coverage value is
left at 0. -/
def parse_percent_line (line marker : String) : Except String ℚ :=
  if pyContains line marker then
    match parsePyFloat? (pyReplaceDrop (pyStrip ((pySplitOn line ':').getLastD "")) '%') with
    | some v => Except.ok (v / 100)
    | none => Except.error "ValueError"
  else Except.ok 0

/-- The coverage stage (lines 399-431): write the increment file, run
`defects4j coverage` under a 180 s budget, and on a clean exit parse the
last two captured lines and walk `coverage.xml`.  Returns
`(bugg, line_coverage, condition_coverage, lines_coverage_info)`.  An
abnormal exit or a timeout sets `bugg = True` with an empty log, so the
parse block is skipped.  `log[-2]` (line 425) raises `IndexError` when
exactly one line was captured. -/
def coverage_stage (env : D4JEnv) (bug_id testmethod : String) :
    Except String (Bool × ℚ × ℚ × List Record) :=
  match env.run (coverage_cmd bug_id testmethod) 180 with
  | ToolRun.hung => Except.ok (true, 0, 0, [])
  | ToolRun.exited c out =>
    if c = 0 then
      match out with
      | [] => Except.ok (false, 0, 0, [])
      | _ =>
        if out.length = 1 then Except.error "IndexError"
        else
          match parse_percent_line (out.reverse.getD 1 "") "Line coverage:" with
          | Except.error e => Except.error e
          | Except.ok lc =>
            match parse_percent_line (out.getLastD "") "Condition coverage:" with
            | Except.error e => Except.error e
            | Except.ok cc =>
              match analysis_coverage env.coverage_xml with
              | Except.error e => Except.error e
              | Except.ok info => Except.ok (false, lc, cc, info)
    else Except.ok (true, 0, 0, [])

/-- `run_d4j_test(source, testmethods, bug_id, be_test_classes)`
(lines 342-434), paired with the trace of subprocesses it launches.

* A javalang parse failure returns
  `(True, False, True, 0, 0, True, [])` at once, launching nothing.
* `testmethods[0]` raises `IndexError` on an empty list.
* The `defects4j test` run (120 s budget): an abnormal exit sets
  `compile_fail` (the stderr grep of lines 378-383 only fills the local
  `error_string`, which is never returned); a timeout sets `timed_out`;
  both leave the captured log empty.
* Lines 394-397 set `bugg` from the log's last line (`trigger_bugg`).
* When `bugg` is `False` the coverage stage runs, and line 433 demotes:
  `bugg = bugg or line_coverage == 0`. -/
def run_d4j_test (env : D4JEnv) (source : String) (testmethods : List String)
    (bug_id : String) (be_test_classes : List String) :
    Except String RunResult × List Proc :=
  if env.parse_ok source = false then
    (Except.ok ⟨true, false, true, 0, 0, true, []⟩, [])
  else
    match testmethods.head? with
    | none => (Except.error "IndexError", [])
    | some testmethod =>
      match env.run (test_cmd bug_id testmethod) 120 with
      | ToolRun.hung =>
        (Except.ok ⟨false, true, true, 0, 0, false, []⟩,
         [Proc.shell (test_cmd bug_id testmethod)])
      | ToolRun.exited c out =>
        if c = 0 then
          if trigger_bugg out then
            (Except.ok ⟨false, false, true, 0, 0, false, []⟩,
             [Proc.shell (test_cmd bug_id testmethod)])
          else
            (match coverage_stage env bug_id testmethod with
             | Except.ok (b2, lc, cc, info) =>
               Except.ok ⟨false, false, b2 || decide (lc = 0), lc, cc, false, info⟩
             | Except.error e => Except.error e,
             [Proc.shell (test_cmd bug_id testmethod),
              Proc.shell (coverage_cmd bug_id testmethod)])
        else
          (Except.ok ⟨true, false, true, 0, 0, false, []⟩,
           [Proc.shell (test_cmd bug_id testmethod)])

/-! ### Splicing and the whole trial (`validate_all_patches`, lines 306-340) -/

/-- Line 320 at the level of line lists:
`source[:start] + patch + source[end+1:]`. -/
def splice_lines (src patch : List String) (start endL : ℕ) : List String :=
  src.take start ++ patch ++ src.drop (endL + 1)

/-- Lines 318-320: split source and patch on newlines, splice, rejoin. -/
def splice_source (source patch : String) (start endL : ℕ) : String :=
  String.intercalate "\n"
    (splice_lines (pySplitOn source '\n') (pySplitOn patch '\n') start endL)

/-- The per-trial dictionary `validate_all_patches` returns
(lines 329-340). -/
structure TrialResult where
  idx : ℕ
  project : String
  bug_id : String
  pass_syn : Bool
  pass_compile : Bool
  pass_trigger : Bool
  line_coverage : ℚ
  condition_coverage : ℚ
  timed_out : Bool
  lines_coverage_info : List Record
deriving DecidableEq

/-- `validate_all_patches(item)` (lines 306-340), with the random
workspace suffix passed in as `suffix`.  It removes and re-checks-out the
workspace (both subprocesses launch before the syntax check), splices the
patch into the source at `[start, end]`, runs `run_d4j_test`, and wraps
the tuple into the result dictionary (`pass_syn` is named `pass_syntax`
in the source).  An exception from `run_d4j_test` propagates, skipping
the final cleanup `rm`. -/
def validate_all_patches (env : D4JEnv) (idx : ℕ)
    (patch project bug_id : String) (testmethods : List String)
    (start endL : ℕ) (location source : String)
    (be_test_classes : List String) (suffix : String) :
    Except String TrialResult × List Proc :=
  let tmp_folder := project ++ "-" ++ bug_id ++ "-" ++ suffix
  let pre := [Proc.rm ("/tmp/" ++ tmp_folder),
              Proc.checkout project (bug_id ++ "f") ("/tmp/" ++ tmp_folder)]
  match run_d4j_test env (splice_source source patch start endL)
      testmethods tmp_folder be_test_classes with
  | (Except.ok r, ev) =>
    (Except.ok ⟨idx, project, bug_id, !r.syntax_err, !r.compile_fail, !r.bugg,
                r.line_coverage, r.condition_coverage, r.timed_out,
                r.lines_coverage_info⟩,
     pre ++ ev ++ [Proc.rm ("/tmp/" ++ tmp_folder)])
  | (Except.error e, ev) => (Except.error e, pre ++ ev)

/-! ### Per-task diff-coverage aggregation (`CodeUJBTestGen.evaluate`)

Lines 224, 236-239: `example_detail["diff_coverage"]` starts as a Python
`set()`, and every record of every trial's `lines_coverage_info` is
`add`ed to it.  Lines 259-264 then compute the ratio of records whose
last component (`hit`) is `True`, or 0 when the set is empty. -/

/-- The set accumulated by the `for detail … for line …` loops. -/
def collect_diff_coverage (details : List (List Record)) : Finset Record :=
  details.foldl (fun acc info => info.foldl (fun a l => insert l a) acc) ∅

/-- The `diff_coverage` value of lines 259-264. -/
def diff_coverage_value (details : List (List Record)) : ℚ :=
  let s := collect_diff_coverage details
  if s.card = 0 then 0
  else ((s.filter (fun x => x.2.2.2 = true)).card : ℚ) / (s.card : ℚ)

/-! ### Helper lemmas for the estimator -/

lemma factor_nonneg {k i : ℕ} (h : k ≤ i) : 0 ≤ 1 - (k : ℚ) / (i : ℚ) := by
  rcases Nat.eq_zero_or_pos i with h0 | h0
  · subst h0; simp
  · have hi : (0 : ℚ) < (i : ℚ) := by exact_mod_cast h0
    have hdiv : (k : ℚ) / (i : ℚ) ≤ 1 := by
      rw [div_le_one hi]; exact_mod_cast h
    linarith

lemma factor_le_one (k i : ℕ) : 1 - (k : ℚ) / (i : ℚ) ≤ 1 := by
  have h : (0 : ℚ) ≤ (k : ℚ) / (i : ℚ) := by positivity
  linarith

lemma prod_factors_nonneg (k : ℕ) (s : Finset ℕ) (h : ∀ i ∈ s, k ≤ i) :
    0 ≤ ∏ i ∈ s, (1 - (k : ℚ) / (i : ℚ)) :=
  Finset.prod_nonneg fun i hi => factor_nonneg (h i hi)

lemma prod_factors_le_one (k : ℕ) (s : Finset ℕ) (h : ∀ i ∈ s, k ≤ i) :
    ∏ i ∈ s, (1 - (k : ℚ) / (i : ℚ)) ≤ 1 :=
  Finset.prod_le_one (fun i hi => factor_nonneg (h i hi)) fun i _ => factor_le_one k i

lemma get_pass_at_k_nonneg (n c k : ℕ) : 0 ≤ get_pass_at_k n c k := by
  unfold get_pass_at_k
  split
  · norm_num
  · rename_i h
    have hk : k ≤ n - c := Nat.not_lt.mp h
    have hp : ∏ i ∈ Finset.Icc (n - c + 1) n, (1 - (k : ℚ) / (i : ℚ)) ≤ 1 := by
      apply prod_factors_le_one
      intro i hi
      rw [Finset.mem_Icc] at hi
      omega
    linarith

lemma get_pass_at_k_le_one (n c k : ℕ) : get_pass_at_k n c k ≤ 1 := by
  unfold get_pass_at_k
  split
  · norm_num
  · rename_i h
    have hk : k ≤ n - c := Nat.not_lt.mp h
    have hp : 0 ≤ ∏ i ∈ Finset.Icc (n - c + 1) n, (1 - (k : ℚ) / (i : ℚ)) := by
      apply prod_factors_nonneg
      intro i hi
      rw [Finset.mem_Icc] at hi
      omega
    linarith

/-! ### Claims about the estimator -/

/-- C1: for all integers `n ≥ 1`, `0 ≤ c ≤ n`, `k ≥ 1`, the pass@k estimator
`get_pass_at_k(n, c, k)` returns exactly 1 when `n - c < k`, and otherwise
`1 - ∏_{i=n-c+1}^{n} (1 - k/i)`; consequently the result lies in `[0, 1]`,
equals 1 when `c = n`, and equals 0 when `c = 0` and `k ≤ n`.  The nested
`estimator` of `code_ujb_mbpp.py` computes the same value. -/
theorem claim_pass_at_k_formula (n c k : ℕ) (hn : 1 ≤ n) (hc : c ≤ n) (hk : 1 ≤ k) :
    (n - c < k → get_pass_at_k n c k = 1) ∧
    (¬ n - c < k →
      get_pass_at_k n c k
        = 1 - ∏ i ∈ Finset.Icc (n - c + 1) n, (1 - (k : ℚ) / (i : ℚ))) ∧
    0 ≤ get_pass_at_k n c k ∧ get_pass_at_k n c k ≤ 1 ∧
    (c = n → get_pass_at_k n c k = 1) ∧
    (c = 0 → k ≤ n → get_pass_at_k n c k = 0) ∧
    get_pass_at_k n c k = estimator n c k := by
  refine ⟨fun h => by rw [get_pass_at_k, if_pos h],
          fun h => by rw [get_pass_at_k, if_neg h],
          get_pass_at_k_nonneg n c k, get_pass_at_k_le_one n c k, ?_, ?_, rfl⟩
  · intro hcn
    subst hcn
    rw [get_pass_at_k, if_pos (by omega)]
  · intro h0 hkn
    subst h0
    rw [get_pass_at_k, if_neg (by omega), Nat.sub_zero,
        Finset.Icc_eq_empty (by omega), Finset.prod_empty]
    ring

/-- Witness for C1 at `n = 3, c = 1, k = 2`. -/
theorem claim_pass_at_k_formula_witness :
    ((1 : ℕ) ≤ 3 ∧ (1 : ℕ) ≤ 3 ∧ (1 : ℕ) ≤ 2) ∧
    ((3 - 1 < 2 → get_pass_at_k 3 1 2 = 1) ∧
     (¬ 3 - 1 < 2 →
       get_pass_at_k 3 1 2
         = 1 - ∏ i ∈ Finset.Icc ((3 : ℕ) - 1 + 1) 3, (1 - (2 : ℚ) / (i : ℚ))) ∧
     0 ≤ get_pass_at_k 3 1 2 ∧ get_pass_at_k 3 1 2 ≤ 1 ∧
     ((1 : ℕ) = 3 → get_pass_at_k 3 1 2 = 1) ∧
     ((1 : ℕ) = 0 → 2 ≤ 3 → get_pass_at_k 3 1 2 = 0) ∧
     get_pass_at_k 3 1 2 = estimator 3 1 2) :=
  ⟨⟨by norm_num, by norm_num, by norm_num⟩,
   claim_pass_at_k_formula 3 1 2 (by norm_num) (by norm_num) (by norm_num)⟩

/-- C9: for fixed `n ≥ 1` and `k ≥ 1`, `get_pass_at_k(n, c, k)` is
monotonically non-decreasing in `c` on `0 ≤ c1 ≤ c2 ≤ n`. -/
theorem claim_pass_at_k_mono (n k c1 c2 : ℕ) (hn : 1 ≤ n) (hk : 1 ≤ k)
    (h12 : c1 ≤ c2) (h2n : c2 ≤ n) :
    get_pass_at_k n c1 k ≤ get_pass_at_k n c2 k := by
  by_cases hb2 : n - c2 < k
  · calc get_pass_at_k n c1 k ≤ 1 := get_pass_at_k_le_one n c1 k
      _ = get_pass_at_k n c2 k := by rw [get_pass_at_k, if_pos hb2]
  · have hk2 : k ≤ n - c2 := Nat.not_lt.mp hb2
    have hsub : n - c2 ≤ n - c1 := Nat.sub_le_sub_left h12 n
    have hb1 : ¬ n - c1 < k := by omega
    rw [get_pass_at_k, if_neg hb1, get_pass_at_k, if_neg hb2]
    have key : ∏ i ∈ Finset.Icc (n - c2 + 1) n, (1 - (k : ℚ) / (i : ℚ))
        ≤ ∏ i ∈ Finset.Icc (n - c1 + 1) n, (1 - (k : ℚ) / (i : ℚ)) := by
      rw [Nat.Icc_succ_left, Nat.Icc_succ_left,
          ← Finset.prod_Ioc_consecutive (fun i => 1 - (k : ℚ) / (i : ℚ))
            hsub (Nat.sub_le n c1)]
      apply mul_le_of_le_one_left
      · apply prod_factors_nonneg
        intro i hi
        rw [Finset.mem_Ioc] at hi
        omega
      · apply prod_factors_le_one
        intro i hi
        rw [Finset.mem_Ioc] at hi
        omega
    linarith

/-- Witness for C9 at `n = 4, k = 2, c1 = 1, c2 = 3`. -/
theorem claim_pass_at_k_mono_witness :
    ((1 : ℕ) ≤ 4 ∧ (1 : ℕ) ≤ 2 ∧ (1 : ℕ) ≤ 3 ∧ (3 : ℕ) ≤ 4) ∧
    get_pass_at_k 4 1 2 ≤ get_pass_at_k 4 3 2 :=
  ⟨⟨by norm_num, by norm_num, by norm_num, by norm_num⟩,
   claim_pass_at_k_mono 4 2 1 3 (by norm_num) (by norm_num) (by norm_num) (by norm_num)⟩

/-! ### Branch characterisations of `run_d4j_test` and `validate_all_patches` -/

lemma run_d4j_test_syntax_fail (env : D4JEnv) (src : String) (tms : List String)
    (bug : String) (cls : List String) (h : env.parse_ok src = false) :
    run_d4j_test env src tms bug cls
      = (Except.ok ⟨true, false, true, 0, 0, true, []⟩, []) := by
  unfold run_d4j_test
  simp [h]

lemma run_d4j_test_nohead (env : D4JEnv) (src : String) (tms : List String)
    (bug : String) (cls : List String) (hp : env.parse_ok src = true)
    (hh : tms.head? = none) :
    run_d4j_test env src tms bug cls = (Except.error "IndexError", []) := by
  unfold run_d4j_test
  simp [hp, hh]

lemma run_d4j_test_hung (env : D4JEnv) (src : String) (tms : List String)
    (bug : String) (cls : List String) (tm : String)
    (hp : env.parse_ok src = true) (hh : tms.head? = some tm)
    (hr : env.run (test_cmd bug tm) 120 = ToolRun.hung) :
    run_d4j_test env src tms bug cls
      = (Except.ok ⟨false, true, true, 0, 0, false, []⟩,
         [Proc.shell (test_cmd bug tm)]) := by
  unfold run_d4j_test
  simp [hp, hh, hr]

lemma run_d4j_test_exit_nonzero (env : D4JEnv) (src : String) (tms : List String)
    (bug : String) (cls : List String) (tm : String) (c : Int) (out : List String)
    (hp : env.parse_ok src = true) (hh : tms.head? = some tm)
    (hr : env.run (test_cmd bug tm) 120 = ToolRun.exited c out) (hc : c ≠ 0) :
    run_d4j_test env src tms bug cls
      = (Except.ok ⟨true, false, true, 0, 0, false, []⟩,
         [Proc.shell (test_cmd bug tm)]) := by
  unfold run_d4j_test
  simp [hp, hh, hr, hc]

lemma run_d4j_test_trigger_fail (env : D4JEnv) (src : String) (tms : List String)
    (bug : String) (cls : List String) (tm : String) (out : List String)
    (hp : env.parse_ok src = true) (hh : tms.head? = some tm)
    (hr : env.run (test_cmd bug tm) 120 = ToolRun.exited 0 out)
    (ht : trigger_bugg out = true) :
    run_d4j_test env src tms bug cls
      = (Except.ok ⟨false, false, true, 0, 0, false, []⟩,
         [Proc.shell (test_cmd bug tm)]) := by
  unfold run_d4j_test
  simp [hp, hh, hr, ht]

lemma run_d4j_test_cov_ok (env : D4JEnv) (src : String) (tms : List String)
    (bug : String) (cls : List String) (tm : String) (out : List String)
    (b2 : Bool) (lc cc : ℚ) (info : List Record)
    (hp : env.parse_ok src = true) (hh : tms.head? = some tm)
    (hr : env.run (test_cmd bug tm) 120 = ToolRun.exited 0 out)
    (ht : trigger_bugg out = false)
    (hcov : coverage_stage env bug tm = Except.ok (b2, lc, cc, info)) :
    run_d4j_test env src tms bug cls
      = (Except.ok ⟨false, false, b2 || decide (lc = 0), lc, cc, false, info⟩,
         [Proc.shell (test_cmd bug tm), Proc.shell (coverage_cmd bug tm)]) := by
  unfold run_d4j_test
  simp [hp, hh, hr, ht, hcov]

lemma run_d4j_test_cov_error (env : D4JEnv) (src : String) (tms : List String)
    (bug : String) (cls : List String) (tm : String) (out : List String) (e : String)
    (hp : env.parse_ok src = true) (hh : tms.head? = some tm)
    (hr : env.run (test_cmd bug tm) 120 = ToolRun.exited 0 out)
    (ht : trigger_bugg out = false)
    (hcov : coverage_stage env bug tm = Except.error e) :
    run_d4j_test env src tms bug cls
      = (Except.error e,
         [Proc.shell (test_cmd bug tm), Proc.shell (coverage_cmd bug tm)]) := by
  unfold run_d4j_test
  simp [hp, hh, hr, ht, hcov]

lemma validate_wrap_ok (env : D4JEnv) (idx : ℕ)
    (patch project bug_id : String) (tms : List String)
    (start endL : ℕ) (location source : String)
    (cls : List String) (suffix : String) (rr : RunResult) (ev : List Proc)
    (h : run_d4j_test env (splice_source source patch start endL) tms
          (project ++ "-" ++ bug_id ++ "-" ++ suffix) cls = (Except.ok rr, ev)) :
    validate_all_patches env idx patch project bug_id tms start endL location source cls suffix
      = (Except.ok ⟨idx, project, bug_id, !rr.syntax_err, !rr.compile_fail, !rr.bugg,
                    rr.line_coverage, rr.condition_coverage, rr.timed_out,
                    rr.lines_coverage_info⟩,
         [Proc.rm ("/tmp/" ++ (project ++ "-" ++ bug_id ++ "-" ++ suffix)),
          Proc.checkout project (bug_id ++ "f")
            ("/tmp/" ++ (project ++ "-" ++ bug_id ++ "-" ++ suffix))]
           ++ ev
           ++ [Proc.rm ("/tmp/" ++ (project ++ "-" ++ bug_id ++ "-" ++ suffix))]) := by
  unfold validate_all_patches
  simp [h]

lemma validate_wrap_error (env : D4JEnv) (idx : ℕ)
    (patch project bug_id : String) (tms : List String)
    (start endL : ℕ) (location source : String)
    (cls : List String) (suffix : String) (e : String) (ev : List Proc)
    (h : run_d4j_test env (splice_source source patch start endL) tms
          (project ++ "-" ++ bug_id ++ "-" ++ suffix) cls = (Except.error e, ev)) :
    validate_all_patches env idx patch project bug_id tms start endL location source cls suffix
      = (Except.error e,
         [Proc.rm ("/tmp/" ++ (project ++ "-" ++ bug_id ++ "-" ++ suffix)),
          Proc.checkout project (bug_id ++ "f")
            ("/tmp/" ++ (project ++ "-" ++ bug_id ++ "-" ++ suffix))]
           ++ ev) := by
  unfold validate_all_patches
  simp [h]

lemma coverage_stage_ok_false (env : D4JEnv) (bug tm : String) (lc cc : ℚ)
    (info : List Record)
    (h : coverage_stage env bug tm = Except.ok (false, lc, cc, info)) :
    ∃ log2, env.run (coverage_cmd bug tm) 180 = ToolRun.exited 0 log2 := by
  unfold coverage_stage at h
  split at h
  · simp at h
  · rename_i c2 out2 heq
    split at h
    · rename_i hc2
      subst hc2
      exact ⟨out2, heq⟩
    · simp at h

lemma run_bugg_false (env : D4JEnv) (src : String) (tms : List String)
    (bug : String) (cls : List String) (rr : RunResult) (ev : List Proc)
    (h : run_d4j_test env src tms bug cls = (Except.ok rr, ev))
    (hb : rr.bugg = false) :
    ∃ tm log2, tms.head? = some tm ∧
      env.run (coverage_cmd bug tm) 180 = ToolRun.exited 0 log2 ∧
      rr.line_coverage ≠ 0 := by
  cases hp : env.parse_ok src with
  | false =>
    rw [run_d4j_test_syntax_fail env src tms bug cls hp] at h
    simp only [Prod.mk.injEq, Except.ok.injEq] at h
    obtain ⟨h1, -⟩ := h
    subst h1
    simp at hb
  | true =>
    cases hh : tms.head? with
    | none =>
      rw [run_d4j_test_nohead env src tms bug cls hp hh] at h
      simp at h
    | some tm =>
      cases hr : env.run (test_cmd bug tm) 120 with
      | hung =>
        rw [run_d4j_test_hung env src tms bug cls tm hp hh hr] at h
        simp only [Prod.mk.injEq, Except.ok.injEq] at h
        obtain ⟨h1, -⟩ := h
        subst h1
        simp at hb
      | exited c out =>
        by_cases hc : c = 0
        · subst hc
          cases ht : trigger_bugg out with
          | true =>
            rw [run_d4j_test_trigger_fail env src tms bug cls tm out hp hh hr ht] at h
            simp only [Prod.mk.injEq, Except.ok.injEq] at h
            obtain ⟨h1, -⟩ := h
            subst h1
            simp at hb
          | false =>
            cases hcov : coverage_stage env bug tm with
            | error e =>
              rw [run_d4j_test_cov_error env src tms bug cls tm out e hp hh hr ht hcov] at h
              simp at h
            | ok q =>
              obtain ⟨b2, lc, cc, info⟩ := q
              rw [run_d4j_test_cov_ok env src tms bug cls tm out b2 lc cc info
                    hp hh hr ht hcov] at h
              simp only [Prod.mk.injEq, Except.ok.injEq] at h
              obtain ⟨h1, -⟩ := h
              subst h1
              simp only [RunResult.bugg, Bool.or_eq_false_iff,
                decide_eq_false_iff_not] at hb
              obtain ⟨hb1, hb2⟩ := hb
              subst hb1
              obtain ⟨log2, hrun2⟩ := coverage_stage_ok_false env bug tm lc cc info hcov
              exact ⟨tm, log2, rfl, hrun2, hb2⟩
        · rw [run_d4j_test_exit_nonzero env src tms bug cls tm c out hp hh hr hc] at h
          simp only [Prod.mk.injEq, Except.ok.injEq] at h
          obtain ⟨h1, -⟩ := h
          subst h1
          simp at hb

/-! ### Claims about the coverage gate -/

/-- C2 (amended): a trial is reported `pass_trigger = true` only if the
coverage sub-command exited cleanly within its time budget and the
measured line coverage is nonzero (the source compares `line_coverage == 0`
at line 433, so a pathological parsed negative percentage also passes;
"strictly greater than zero" does not hold).  In particular a non-zero
exit or a timeout of the coverage command, and a trigger-passing trial
whose measured line coverage is 0, are all demoted to
`pass_trigger = false`. -/
theorem claim_coverage_gate (env : D4JEnv) (idx : ℕ)
    (patch project bug_id : String) (tms : List String)
    (start endL : ℕ) (location source : String)
    (cls : List String) (suffix : String) (r : TrialResult) (ev : List Proc)
    (h : validate_all_patches env idx patch project bug_id tms start endL
          location source cls suffix = (Except.ok r, ev))
    (ht : r.pass_trigger = true) :
    ∃ tm log2, tms.head? = some tm ∧
      env.run (coverage_cmd (project ++ "-" ++ bug_id ++ "-" ++ suffix) tm) 180
        = ToolRun.exited 0 log2 ∧
      r.line_coverage ≠ 0 := by
  rcases hrun : run_d4j_test env (splice_source source patch start endL) tms
      (project ++ "-" ++ bug_id ++ "-" ++ suffix) cls with ⟨res, ev2⟩
  cases res with
  | error e =>
    rw [validate_wrap_error env idx patch project bug_id tms start endL
          location source cls suffix e ev2 hrun] at h
    simp at h
  | ok rr =>
    rw [validate_wrap_ok env idx patch project bug_id tms start endL
          location source cls suffix rr ev2 hrun] at h
    simp only [Prod.mk.injEq, Except.ok.injEq] at h
    obtain ⟨h1, -⟩ := h
    subst h1
    have hb : rr.bugg = false := by simpa using ht
    obtain ⟨tm, log2, hh, hcc, hlc⟩ :=
      run_bugg_false env (splice_source source patch start endL) tms
        (project ++ "-" ++ bug_id ++ "-" ++ suffix) cls rr ev2 hrun hb
    exact ⟨tm, log2, hh, hcc, hlc⟩

/-- Environment for the C2 witness: everything succeeds, line coverage
80 %, condition coverage 50 %, an empty (but present) coverage report. -/
def env_c2w : D4JEnv :=
  ⟨fun _ => true,
   fun _ b => if b = 120 then ToolRun.exited 0 ["Failing tests: 0\n"]
              else ToolRun.exited 0 ["Line coverage: 80%\n", "Condition coverage: 50%\n"],
   some ⟨[]⟩⟩

/-- Witness for C2 on `env_c2w`: the trial passes with line coverage 4/5,
and the claim's conclusion holds for it. -/
theorem claim_coverage_gate_witness :
    validate_all_patches env_c2w 0 "p" "Lang" "1" ["t"] 0 0 "loc" "src" [] "x"
      = (Except.ok ⟨0, "Lang", "1", true, true, true, 4 / 5, 1 / 2, false, []⟩,
         [Proc.rm "/tmp/Lang-1-x",
          Proc.checkout "Lang" "1f" "/tmp/Lang-1-x",
          Proc.shell (test_cmd "Lang-1-x" "t"),
          Proc.shell (coverage_cmd "Lang-1-x" "t"),
          Proc.rm "/tmp/Lang-1-x"])
    ∧ (∃ tm log2, (["t"] : List String).head? = some tm ∧
        env_c2w.run (coverage_cmd ("Lang" ++ "-" ++ "1" ++ "-" ++ "x") tm) 180
          = ToolRun.exited 0 log2 ∧
        (4 / 5 : ℚ) ≠ 0) := by
  have hcov0 : coverage_stage env_c2w ("Lang" ++ "-" ++ "1" ++ "-" ++ "x") "t"
      = Except.ok (false, (1 : ℚ) * ((80 : ℕ) : ℚ) / 100,
                   (1 : ℚ) * ((50 : ℕ) : ℚ) / 100, []) := rfl
  have e1 : (1 : ℚ) * ((80 : ℕ) : ℚ) / 100 = 4 / 5 := by norm_num
  have e2 : (1 : ℚ) * ((50 : ℕ) : ℚ) / 100 = 1 / 2 := by norm_num
  rw [e1, e2] at hcov0
  have hrun := run_d4j_test_cov_ok env_c2w (splice_source "src" "p" 0 0) ["t"]
      ("Lang" ++ "-" ++ "1" ++ "-" ++ "x") [] "t" ["Failing tests: 0\n"]
      false (4 / 5) (1 / 2) [] rfl rfl rfl rfl hcov0
  have hd : (false || decide ((4 / 5 : ℚ) = 0)) = false := by norm_num
  rw [hd] at hrun
  have hval := validate_wrap_ok env_c2w 0 "p" "Lang" "1" ["t"] 0 0 "loc" "src" [] "x"
      ⟨false, false, false, 4 / 5, 1 / 2, false, []⟩ _ hrun
  have hmain : validate_all_patches env_c2w 0 "p" "Lang" "1" ["t"] 0 0 "loc" "src" [] "x"
      = (Except.ok ⟨0, "Lang", "1", true, true, true, 4 / 5, 1 / 2, false, []⟩,
         [Proc.rm "/tmp/Lang-1-x",
          Proc.checkout "Lang" "1f" "/tmp/Lang-1-x",
          Proc.shell (test_cmd "Lang-1-x" "t"),
          Proc.shell (coverage_cmd "Lang-1-x" "t"),
          Proc.rm "/tmp/Lang-1-x"]) := by
    rw [hval]; rfl
  exact ⟨hmain,
    claim_coverage_gate env_c2w 0 "p" "Lang" "1" ["t"] 0 0 "loc" "src" [] "x"
      ⟨0, "Lang", "1", true, true, true, 4 / 5, 1 / 2, false, []⟩ _ hmain rfl⟩

/-- Environment for the C2 counterexample: the coverage tool reports a
negative percentage, which `float(...)` parses happily. -/
def env_c2neg : D4JEnv :=
  ⟨fun _ => true,
   fun _ b => if b = 120 then ToolRun.exited 0 ["Failing tests: 0\n"]
              else ToolRun.exited 0 ["Line coverage: -5%\n", "Condition coverage: 0%\n"],
   some ⟨[]⟩⟩

/-- Counterexample to C2 as stated: on `env_c2neg` the trial is reported
`pass_trigger = true` although the measured line coverage is `-1/20`,
which is not strictly greater than zero (line 433 only demotes on
`line_coverage == 0`). -/
theorem claim_coverage_gate_cex :
    (validate_all_patches env_c2neg 0 "p" "Lang" "1" ["t"] 0 0 "loc" "src" [] "x").1
      = Except.ok ⟨0, "Lang", "1", true, true, true, -1 / 20, 0, false, []⟩
    ∧ ¬ ((0 : ℚ) < -1 / 20) := by
  constructor
  · have hcov0 : coverage_stage env_c2neg ("Lang" ++ "-" ++ "1" ++ "-" ++ "x") "t"
        = Except.ok (false, (-1 : ℚ) * ((5 : ℕ) : ℚ) / 100,
                     (1 : ℚ) * ((0 : ℕ) : ℚ) / 100, []) := rfl
    have e1 : (-1 : ℚ) * ((5 : ℕ) : ℚ) / 100 = -1 / 20 := by norm_num
    have e2 : (1 : ℚ) * ((0 : ℕ) : ℚ) / 100 = 0 := by norm_num
    rw [e1, e2] at hcov0
    have hrun := run_d4j_test_cov_ok env_c2neg (splice_source "src" "p" 0 0) ["t"]
        ("Lang" ++ "-" ++ "1" ++ "-" ++ "x") [] "t" ["Failing tests: 0\n"]
        false (-1 / 20) 0 [] rfl rfl rfl rfl hcov0
    have hd : (false || decide ((-1 / 20 : ℚ) = 0)) = false := by norm_num
    rw [hd] at hrun
    have hval := validate_wrap_ok env_c2neg 0 "p" "Lang" "1" ["t"] 0 0 "loc" "src" [] "x"
        ⟨false, false, false, -1 / 20, 0, false, []⟩ _ hrun
    rw [hval]; rfl
  · norm_num

/-! ### Claims about the build/run stage -/

/-- C3 (amended): when the `defects4j test` invocation exceeds its 120 s
wall-clock budget, the trial's result has `timed_out = true`, the trigger
and coverage stages are reported failed with coverage 0 and no coverage
records — but `compile_fail` is NOT set on this path (only the abnormal-exit
branch sets it), so the reported `pass_compile` is `true`, not `false`. -/
theorem claim_timeout_outcome (env : D4JEnv) (idx : ℕ)
    (patch project bug_id : String) (tms : List String) (tm : String)
    (start endL : ℕ) (location source : String)
    (cls : List String) (suffix : String)
    (hh : tms.head? = some tm)
    (hp : env.parse_ok (splice_source source patch start endL) = true)
    (hr : env.run (test_cmd (project ++ "-" ++ bug_id ++ "-" ++ suffix) tm) 120
            = ToolRun.hung) :
    validate_all_patches env idx patch project bug_id tms start endL
        location source cls suffix
      = (Except.ok ⟨idx, project, bug_id, true, true, false, 0, 0, true, []⟩,
         [Proc.rm ("/tmp/" ++ (project ++ "-" ++ bug_id ++ "-" ++ suffix)),
          Proc.checkout project (bug_id ++ "f")
            ("/tmp/" ++ (project ++ "-" ++ bug_id ++ "-" ++ suffix)),
          Proc.shell (test_cmd (project ++ "-" ++ bug_id ++ "-" ++ suffix) tm),
          Proc.rm ("/tmp/" ++ (project ++ "-" ++ bug_id ++ "-" ++ suffix))]) := by
  have hrun := run_d4j_test_hung env (splice_source source patch start endL) tms
      (project ++ "-" ++ bug_id ++ "-" ++ suffix) cls tm hp hh hr
  rw [validate_wrap_ok env idx patch project bug_id tms start endL
        location source cls suffix ⟨false, true, true, 0, 0, false, []⟩
        [Proc.shell (test_cmd (project ++ "-" ++ bug_id ++ "-" ++ suffix) tm)] hrun]
  rfl

/-- Environment for the C3 witness. -/
def env_c3w : D4JEnv := ⟨fun _ => true, fun _ _ => ToolRun.hung, none⟩

/-- Witness for C3 (amended) on `env_c3w`. -/
theorem claim_timeout_outcome_witness :
    (["t"] : List String).head? = some "t" ∧
    env_c3w.parse_ok (splice_source "src" "p" 0 0) = true ∧
    env_c3w.run (test_cmd ("Lang" ++ "-" ++ "1" ++ "-" ++ "x") "t") 120 = ToolRun.hung ∧
    validate_all_patches env_c3w 0 "p" "Lang" "1" ["t"] 0 0 "loc" "src" [] "x"
      = (Except.ok ⟨0, "Lang", "1", true, true, false, 0, 0, true, []⟩,
         [Proc.rm ("/tmp/" ++ ("Lang" ++ "-" ++ "1" ++ "-" ++ "x")),
          Proc.checkout "Lang" ("1" ++ "f")
            ("/tmp/" ++ ("Lang" ++ "-" ++ "1" ++ "-" ++ "x")),
          Proc.shell (test_cmd ("Lang" ++ "-" ++ "1" ++ "-" ++ "x") "t"),
          Proc.rm ("/tmp/" ++ ("Lang" ++ "-" ++ "1" ++ "-" ++ "x"))]) :=
  ⟨rfl, rfl, rfl,
   claim_timeout_outcome env_c3w 0 "p" "Lang" "1" ["t"] "t" 0 0 "loc" "src" [] "x"
     rfl rfl rfl⟩

/-- Environment for the C3 counterexample. -/
def env_c3cex : D4JEnv := ⟨fun _ => true, fun _ _ => ToolRun.hung, none⟩

/-- Counterexample to C3 as stated: on a timed-out build/run invocation the
returned trial has `timed_out = true` but `pass_compile = true` (the claim
says build success must be reported `false`; the code never sets
`compile_fail` on the timeout branch). -/
theorem claim_timeout_outcome_cex :
    (validate_all_patches env_c3cex 0 "p" "Lang" "1" ["t"] 0 0 "loc" "src" [] "x").1
      = Except.ok ⟨0, "Lang", "1", true, true, false, 0, 0, true, []⟩ := rfl

/-- C4: on a clean (zero) exit of the build/run step, the trigger stage
classifies the trial as trigger-success iff the captured log is nonempty
and its last line is exactly the marker `"Failing tests: 0\n"`; on any
other last line — and on empty output — `run_d4j_test` reports the
trigger failed (`bugg = true`) without running the coverage stage, while
on the marker it proceeds to the coverage stage. -/
theorem claim_trigger_marker (log : List String) :
    (trigger_bugg log = false ↔ log ≠ [] ∧ log.getLastD "" = failing_tests_zero) ∧
    (∀ (env : D4JEnv) (source : String) (tms : List String) (bug_id : String)
       (cls : List String) (tm : String),
       env.parse_ok source = true → tms.head? = some tm →
       env.run (test_cmd bug_id tm) 120 = ToolRun.exited 0 log →
       ((trigger_bugg log = true →
           run_d4j_test env source tms bug_id cls
             = (Except.ok ⟨false, false, true, 0, 0, false, []⟩,
                [Proc.shell (test_cmd bug_id tm)])) ∧
        (trigger_bugg log = false →
           (run_d4j_test env source tms bug_id cls).2
             = [Proc.shell (test_cmd bug_id tm),
                Proc.shell (coverage_cmd bug_id tm)]))) := by
  constructor
  · rw [← List.length_pos]
    unfold trigger_bugg
    split
    · rename_i hcond
      exact iff_of_true rfl hcond
    · rename_i hcond
      exact iff_of_false (by simp) hcond
  · intro env source tms bug_id cls tm hp hh hr
    constructor
    · intro ht
      exact run_d4j_test_trigger_fail env source tms bug_id cls tm log hp hh hr ht
    · intro ht
      cases hcov : coverage_stage env bug_id tm with
      | ok q =>
        obtain ⟨b2, lc, cc, info⟩ := q
        rw [run_d4j_test_cov_ok env source tms bug_id cls tm log b2 lc cc info
              hp hh hr ht hcov]
      | error e =>
        rw [run_d4j_test_cov_error env source tms bug_id cls tm log e
              hp hh hr ht hcov]

/-- Environment for the C4 witness: clean exit whose last line is not the
marker. -/
def env_c4w : D4JEnv :=
  ⟨fun _ => true,
   fun _ b => if b = 120 then ToolRun.exited 0 ["Failing tests: 2\n"] else ToolRun.hung,
   none⟩

/-- Witness for C4: the log `["Failing tests: 2\n"]` is classified
trigger-failure, and the trial on `env_c4w` reports `bugg = true` after a
clean exit. -/
theorem claim_trigger_marker_witness :
    (trigger_bugg ["Failing tests: 2\n"] = false ↔
      (["Failing tests: 2\n"] : List String) ≠ [] ∧
      (["Failing tests: 2\n"] : List String).getLastD "" = failing_tests_zero) ∧
    run_d4j_test env_c4w "src" ["t"] "b" []
      = (Except.ok ⟨false, false, true, 0, 0, false, []⟩,
         [Proc.shell (test_cmd "b" "t")]) :=
  ⟨(claim_trigger_marker ["Failing tests: 2\n"]).1,
   (((claim_trigger_marker ["Failing tests: 2\n"]).2 env_c4w "src" ["t"] "b" [] "t"
      rfl rfl rfl).1) rfl⟩

/-! ### Claims about the syntax short-circuit -/

/-- C5 (amended): a trial whose spliced source fails to parse returns
(without crashing) a result with `pass_syntax`, `pass_compile` and
`pass_trigger` all `false`, zero line/condition coverage and an empty
coverage-record list, and launches neither the `defects4j test` nor the
`defects4j coverage` subprocess — its trace holds no `Proc.shell` event.
The workspace cleanup and checkout subprocesses (`rm -rf`,
`defects4j checkout`), however, are launched before the syntax check on
every trial, so "no subprocess is launched" does not hold. -/
theorem claim_syntax_short_circuit (env : D4JEnv) (idx : ℕ)
    (patch project bug_id : String) (tms : List String)
    (start endL : ℕ) (location source : String)
    (cls : List String) (suffix : String)
    (h : env.parse_ok (splice_source source patch start endL) = false) :
    validate_all_patches env idx patch project bug_id tms start endL
        location source cls suffix
      = (Except.ok ⟨idx, project, bug_id, false, false, false, 0, 0, false, []⟩,
         [Proc.rm ("/tmp/" ++ (project ++ "-" ++ bug_id ++ "-" ++ suffix)),
          Proc.checkout project (bug_id ++ "f")
            ("/tmp/" ++ (project ++ "-" ++ bug_id ++ "-" ++ suffix)),
          Proc.rm ("/tmp/" ++ (project ++ "-" ++ bug_id ++ "-" ++ suffix))]) := by
  have hrun := run_d4j_test_syntax_fail env (splice_source source patch start endL)
      tms (project ++ "-" ++ bug_id ++ "-" ++ suffix) cls h
  rw [validate_wrap_ok env idx patch project bug_id tms start endL
        location source cls suffix ⟨true, false, true, 0, 0, true, []⟩ [] hrun]
  rfl

/-- Environment for the C5 witness: nothing parses. -/
def env_c5w : D4JEnv := ⟨fun _ => false, fun _ _ => ToolRun.hung, none⟩

/-- Witness for C5 (amended) on `env_c5w`. -/
theorem claim_syntax_short_circuit_witness :
    env_c5w.parse_ok (splice_source "src" "p" 0 0) = false ∧
    validate_all_patches env_c5w 0 "p" "Lang" "1" ["t"] 0 0 "loc" "src" [] "x"
      = (Except.ok ⟨0, "Lang", "1", false, false, false, 0, 0, false, []⟩,
         [Proc.rm ("/tmp/" ++ ("Lang" ++ "-" ++ "1" ++ "-" ++ "x")),
          Proc.checkout "Lang" ("1" ++ "f")
            ("/tmp/" ++ ("Lang" ++ "-" ++ "1" ++ "-" ++ "x")),
          Proc.rm ("/tmp/" ++ ("Lang" ++ "-" ++ "1" ++ "-" ++ "x"))]) :=
  ⟨rfl,
   claim_syntax_short_circuit env_c5w 0 "p" "Lang" "1" ["t"] 0 0 "loc" "src" [] "x" rfl⟩

/-- Environment for the C5 counterexample. -/
def env_c5cex : D4JEnv := ⟨fun _ => false, fun _ _ => ToolRun.hung, none⟩

/-- Counterexample to C5 as stated: even for an unparsable candidate the
trial launches subprocesses — the workspace `rm -rf` and the
`defects4j checkout` run before the syntax check, so the trial's
subprocess trace is not empty. -/
theorem claim_syntax_short_circuit_cex :
    (validate_all_patches env_c5cex 0 "p" "Lang" "1" ["t"] 0 0 "loc" "src" [] "x").2
      = [Proc.rm "/tmp/Lang-1-x",
         Proc.checkout "Lang" "1f" "/tmp/Lang-1-x",
         Proc.rm "/tmp/Lang-1-x"] ∧
    (validate_all_patches env_c5cex 0 "p" "Lang" "1" ["t"] 0 0 "loc" "src" [] "x").2 ≠ [] :=
  ⟨rfl, by decide⟩

/-! ### Claims about splicing -/

/-- C7: splicing replaces exactly the line range `[start, end]` of the
source with the candidate's lines — the spliced list is the pre-span lines
followed by the candidate followed by the post-span lines — and
re-extracting the candidate's position (`start` to
`start + patch.length`) from the spliced list reproduces the candidate
verbatim. -/
theorem claim_splice_roundtrip (src patch : List String) (start endL : ℕ)
    (h1 : start ≤ endL) (h2 : endL < src.length) :
    splice_lines src patch start endL
      = src.take start ++ patch ++ src.drop (endL + 1) ∧
    ((splice_lines src patch start endL).drop start).take patch.length = patch := by
  refine ⟨rfl, ?_⟩
  have hs : start ≤ src.length := by omega
  unfold splice_lines
  set A := src.take start with hA
  have hlen : A.length = start := by
    rw [hA, List.length_take]
    exact Nat.min_eq_left hs
  rw [List.append_assoc, ← hlen, List.drop_left, List.take_left]

/-- Witness for C7: source `["a","b","c","d"]`, candidate `["X","Y"]`,
span `[1, 2]`. -/
theorem claim_splice_roundtrip_witness :
    ((1 : ℕ) ≤ 2 ∧ 2 < (["a", "b", "c", "d"] : List String).length) ∧
    (splice_lines ["a", "b", "c", "d"] ["X", "Y"] 1 2
       = (["a", "b", "c", "d"] : List String).take 1 ++ ["X", "Y"]
           ++ (["a", "b", "c", "d"] : List String).drop (2 + 1) ∧
     ((splice_lines ["a", "b", "c", "d"] ["X", "Y"] 1 2).drop 1).take
         (["X", "Y"] : List String).length = ["X", "Y"]) :=
  ⟨⟨by norm_num, by norm_num⟩,
   claim_splice_roundtrip ["a", "b", "c", "d"] ["X", "Y"] 1 2
     (by norm_num) (by norm_num)⟩

/-! ### Claims about the trigger-test list -/

/-- Auxiliary for C10: `run_d4j_test` reads the trigger-test list only
through `testmethods[0]`. -/
lemma run_d4j_test_head_only (env : D4JEnv) (src : String)
    (tms1 tms2 : List String) (bug : String) (cls : List String)
    (h : tms1.head? = tms2.head?) :
    run_d4j_test env src tms1 bug cls = run_d4j_test env src tms2 bug cls := by
  unfold run_d4j_test
  rw [h]

/-- C10: only the first identifier of a task's trigger-test list is ever
used — two trials that differ only in the tail of `testmethods` produce
identical results (same outcome, same subprocess trace). -/
theorem claim_first_testmethod_only (env : D4JEnv) (idx : ℕ)
    (patch project bug_id : String) (tms1 tms2 : List String)
    (start endL : ℕ) (location source : String)
    (cls : List String) (suffix : String)
    (h : tms1.head? = tms2.head?) :
    validate_all_patches env idx patch project bug_id tms1 start endL
        location source cls suffix
      = validate_all_patches env idx patch project bug_id tms2 start endL
          location source cls suffix := by
  simp only [validate_all_patches,
    run_d4j_test_head_only env (splice_source source patch start endL)
      tms1 tms2 (project ++ "-" ++ bug_id ++ "-" ++ suffix) cls h]

/-- Environment for the C10 witness. -/
def env_c10w : D4JEnv :=
  ⟨fun _ => true,
   fun _ b => if b = 120 then ToolRun.exited 1 [] else ToolRun.hung,
   none⟩

/-- Witness for C10: `["t", "u"]` and `["t", "v"]` agree on their first
element and give identical trials. -/
theorem claim_first_testmethod_only_witness :
    (["t", "u"] : List String).head? = (["t", "v"] : List String).head? ∧
    validate_all_patches env_c10w 0 "p" "Lang" "1" ["t", "u"] 0 0 "loc" "src" [] "x"
      = validate_all_patches env_c10w 0 "p" "Lang" "1" ["t", "v"] 0 0 "loc" "src" [] "x" :=
  ⟨rfl,
   claim_first_testmethod_only env_c10w 0 "p" "Lang" "1" ["t", "u"] ["t", "v"]
     0 0 "loc" "src" [] "x" rfl⟩

/-! ### Claims about the diff-coverage aggregation -/

lemma foldl_insert_toFinset (l : List Record) (acc : Finset Record) :
    l.foldl (fun a x => insert x a) acc = l.toFinset ∪ acc := by
  induction l generalizing acc with
  | nil => simp
  | cons x xs ih =>
    simp only [List.foldl_cons, ih, List.toFinset_cons]
    rw [Finset.union_insert, Finset.insert_union]

lemma collect_diff_coverage_toFinset (details : List (List Record)) :
    collect_diff_coverage details = details.flatten.toFinset := by
  suffices h : ∀ acc : Finset Record,
      details.foldl (fun acc info => info.foldl (fun a l => insert l a) acc) acc
        = details.flatten.toFinset ∪ acc by
    have h0 := h ∅
    rw [Finset.union_empty] at h0
    exact h0
  induction details with
  | nil => intro acc; simp
  | cons i is ih =>
    intro acc
    simp only [List.foldl_cons]
    rw [ih (List.foldl (fun a l => insert l a) acc i), foldl_insert_toFinset,
      List.flatten_cons, List.toFinset_append]
    ext y
    simp only [Finset.mem_union]
    tauto

/-- C6 (amended): the per-task changed-line coverage set accumulated by
`evaluate` deduplicates by the FULL record `(class, file, line-number,
hit)`: the set equals the `toFinset` of all trials' records concatenated,
so a record repeated across trials — in particular the same
`(class, file, line)` reported `hit = true` by two trials — counts once.
The same `(class, file, line)` observed with differing hit booleans,
however, contributes one record per distinct hit value, not one record
in total. -/
theorem claim_diff_coverage_dedupe :
    (∀ details : List (List Record),
       collect_diff_coverage details = details.flatten.toFinset) ∧
    (∀ (r : Record) (rest : List (List Record)),
       collect_diff_coverage ([r] :: [r] :: rest)
         = collect_diff_coverage ([r] :: rest)) := by
  refine ⟨collect_diff_coverage_toFinset, fun r rest => ?_⟩
  rw [collect_diff_coverage_toFinset, collect_diff_coverage_toFinset]
  simp

/-- The same changed line reported as hit. -/
def rec_hit : Record := ("org.X", "X.java", "42", true)

/-- The same changed line reported as not hit. -/
def rec_miss : Record := ("org.X", "X.java", "42", false)

/-- Counterexample to C6 as stated: two trials observing the same
`(class, file, line)` key with different hit booleans contribute TWO
records to the `diff_coverage` denominator (the Python set holds full
4-tuples), not exactly one as the claim demands — the resulting ratio is
1/2 where the claim's reading would give a one-record denominator. -/
theorem claim_diff_coverage_dedupe_cex :
    (collect_diff_coverage [[rec_hit], [rec_miss]]).card = 2 ∧
    diff_coverage_value [[rec_hit], [rec_miss]] = 1 / 2 := by
  constructor
  · decide
  · have h1 : (collect_diff_coverage [[rec_hit], [rec_miss]]).card = 2 := by decide
    have h2 : ((collect_diff_coverage [[rec_hit], [rec_miss]]).filter
        (fun x => x.2.2.2 = true)).card = 1 := by decide
    simp only [diff_coverage_value, h1, h2]
    norm_num

/-! ### Claims about exception propagation -/

lemma coverage_stage_missing_xml (env : D4JEnv) (bug tm : String)
    (log2 : List String) (lc cc : ℚ)
    (hr : env.run (coverage_cmd bug tm) 180 = ToolRun.exited 0 log2)
    (hlen : 2 ≤ log2.length)
    (hl : parse_percent_line (log2.reverse.getD 1 "") "Line coverage:" = Except.ok lc)
    (hc : parse_percent_line (log2.getLastD "") "Condition coverage:" = Except.ok cc)
    (hx : env.coverage_xml = none) :
    coverage_stage env bug tm = Except.error "FileNotFoundError" := by
  unfold coverage_stage
  rcases log2 with - | ⟨a, t⟩
  · simp only [List.length_nil] at hlen
    omega
  · have ht' : t ≠ [] := by
      rcases t with - | ⟨b, t2⟩
      · simp at hlen
      · simp
    simp only [List.length_cons] at hlen
    simp at hl hc
    simp [hr, ht', hl, hc, hx, analysis_coverage]

/-- C8 (amended): a trial returns a well-formed result on every path that
does not reach the coverage-report parsing — syntax failure, a hung or
abnormally-exiting `defects4j test` run, and a clean run without the
trigger marker all yield `Except.ok` outcomes and propagate no exception.
The coverage parse itself is NOT fault-tolerant: when the trial reaches it
(clean test run with the marker, clean coverage run, two parsable coverage
lines) and `coverage.xml` is missing, `ET.parse` raises and the
`FileNotFoundError` propagates out of the trial instead of yielding zero
records. -/
theorem claim_trial_wellformed :
    (∀ (env : D4JEnv) (idx : ℕ) (patch project bug_id : String)
       (tms : List String) (tm : String) (start endL : ℕ)
       (location source : String) (cls : List String) (suffix : String),
       tms.head? = some tm →
       (env.parse_ok (splice_source source patch start endL) = false ∨
        env.run (test_cmd (project ++ "-" ++ bug_id ++ "-" ++ suffix) tm) 120
          = ToolRun.hung ∨
        (∃ c out,
          env.run (test_cmd (project ++ "-" ++ bug_id ++ "-" ++ suffix) tm) 120
            = ToolRun.exited c out ∧ (c ≠ 0 ∨ trigger_bugg out = true))) →
       ∃ r ev, validate_all_patches env idx patch project bug_id tms start endL
           location source cls suffix = (Except.ok r, ev)) ∧
    (∀ (env : D4JEnv) (idx : ℕ) (patch project bug_id : String)
       (tms : List String) (tm : String) (start endL : ℕ)
       (location source : String) (cls : List String) (suffix : String)
       (out log2 : List String) (lc cc : ℚ),
       tms.head? = some tm →
       env.parse_ok (splice_source source patch start endL) = true →
       env.run (test_cmd (project ++ "-" ++ bug_id ++ "-" ++ suffix) tm) 120
         = ToolRun.exited 0 out →
       trigger_bugg out = false →
       env.run (coverage_cmd (project ++ "-" ++ bug_id ++ "-" ++ suffix) tm) 180
         = ToolRun.exited 0 log2 →
       2 ≤ log2.length →
       parse_percent_line (log2.reverse.getD 1 "") "Line coverage:" = Except.ok lc →
       parse_percent_line (log2.getLastD "") "Condition coverage:" = Except.ok cc →
       env.coverage_xml = none →
       (validate_all_patches env idx patch project bug_id tms start endL
           location source cls suffix).1 = Except.error "FileNotFoundError") := by
  constructor
  · intro env idx patch project bug_id tms tm start endL location source cls suffix
      hh hcase
    rcases hcase with hp | hr | ⟨c, out, hr, hco⟩
    · exact ⟨_, _, validate_wrap_ok env idx patch project bug_id tms start endL
        location source cls suffix _ _
        (run_d4j_test_syntax_fail env _ tms _ cls hp)⟩
    · cases hb : env.parse_ok (splice_source source patch start endL) with
      | false => exact ⟨_, _, validate_wrap_ok env idx patch project bug_id tms
          start endL location source cls suffix _ _
          (run_d4j_test_syntax_fail env _ tms _ cls hb)⟩
      | true => exact ⟨_, _, validate_wrap_ok env idx patch project bug_id tms
          start endL location source cls suffix _ _
          (run_d4j_test_hung env _ tms _ cls tm hb hh hr)⟩
    · cases hb : env.parse_ok (splice_source source patch start endL) with
      | false => exact ⟨_, _, validate_wrap_ok env idx patch project bug_id tms
          start endL location source cls suffix _ _
          (run_d4j_test_syntax_fail env _ tms _ cls hb)⟩
      | true =>
        rcases hco with hc | ht
        · exact ⟨_, _, validate_wrap_ok env idx patch project bug_id tms
            start endL location source cls suffix _ _
            (run_d4j_test_exit_nonzero env _ tms _ cls tm c out hb hh hr hc)⟩
        · by_cases hc0 : c = 0
          · subst hc0
            exact ⟨_, _, validate_wrap_ok env idx patch project bug_id tms
              start endL location source cls suffix _ _
              (run_d4j_test_trigger_fail env _ tms _ cls tm out hb hh hr ht)⟩
          · exact ⟨_, _, validate_wrap_ok env idx patch project bug_id tms
              start endL location source cls suffix _ _
              (run_d4j_test_exit_nonzero env _ tms _ cls tm c out hb hh hr hc0)⟩
  · intro env idx patch project bug_id tms tm start endL location source cls suffix
      out log2 lc cc hh hp hr ht hc5 hlen hl hc2 hx
    have hcov : coverage_stage env (project ++ "-" ++ bug_id ++ "-" ++ suffix) tm
        = Except.error "FileNotFoundError" :=
      coverage_stage_missing_xml env _ tm log2 lc cc hc5 hlen hl hc2 hx
    rw [validate_wrap_error env idx patch project bug_id tms start endL
          location source cls suffix "FileNotFoundError" _
          (run_d4j_test_cov_error env _ tms _ cls tm out "FileNotFoundError"
            hp hh hr ht hcov)]

/-- Environment for the C8 witness: the candidate does not parse, so the
trial short-circuits to a well-formed failed outcome. -/
def env_c8w : D4JEnv := ⟨fun _ => false, fun _ _ => ToolRun.hung, none⟩

/-- Witness for C8 (amended) on `env_c8w`. -/
theorem claim_trial_wellformed_witness :
    (["t"] : List String).head? = some "t" ∧
    env_c8w.parse_ok (splice_source "src" "p" 0 0) = false ∧
    (∃ r ev, validate_all_patches env_c8w 0 "p" "Lang" "1" ["t"] 0 0 "loc" "src" [] "x"
       = (Except.ok r, ev)) :=
  ⟨rfl, rfl,
   claim_trial_wellformed.1 env_c8w 0 "p" "Lang" "1" ["t"] "t" 0 0 "loc" "src" [] "x"
     rfl (Or.inl rfl)⟩

/-- Environment for the C8 counterexample: the whole pipeline succeeds but
`coverage.xml` is missing. -/
def env_c8cex : D4JEnv :=
  ⟨fun _ => true,
   fun _ b => if b = 120 then ToolRun.exited 0 ["Failing tests: 0\n"]
              else ToolRun.exited 0 ["Line coverage: 80%\n", "Condition coverage: 50%\n"],
   none⟩

/-- Counterexample to C8 as stated: with the coverage report file missing
the trial does not return a well-formed outcome with zero records — the
`FileNotFoundError` raised by `ET.parse` propagates out of
`validate_all_patches` (and the final workspace cleanup is skipped). -/
theorem claim_trial_wellformed_cex :
    (validate_all_patches env_c8cex 0 "p" "Lang" "1" ["t"] 0 0 "loc" "src" [] "x").1
      = Except.error "FileNotFoundError" := rfl

end CodeUJB
